import Mathlib

/-! Task list manager: REST handlers (`server.js`) and React client (`app.jsx`)

A shallow embedding of the four Express handlers of `src/server.js` and of the
event handlers of the `App` component of `src/app.jsx`.

* JavaScript values that flow through the code are embedded as `JsVal`
  (scalars) and `Obj` (flat JSON objects).
* An `async` handler that awaits one `pool.query` / one `fetch` is embedded as
  the statement it issues together with the continuation that turns the
  outcome (resolved or rejected) into the response / the next UI state.
* The relational store is external to the repository; it is modelled from the
  table schema of the specification.
-/

namespace TaskApp

/-! ## JavaScript values -/

/-- JavaScript scalar values. Finite numbers are the integers (ids are
integers); `nan` is the result of a failed `parseInt`, `inf` the infinity a
numeral too large for a double is read as. -/
inductive JsVal where
  | undefined
  | null
  | bool (b : Bool)
  | num (n : Int)
  | nan
  | inf (negative : Bool)
  | str (s : String)
  deriving DecidableEq, Repr

namespace JsVal

/-- ECMAScript `ToBoolean`: `!v` is `!v.truthy`. -/
def truthy : JsVal → Bool
  | undefined => false
  | null => false
  | bool b => b
  | num n => n != 0
  | nan => false
  | inf _ => true
  | str s => s != ""

/-- ECMAScript strict equality `===` on scalars (`NaN` equals nothing). -/
def strictEq : JsVal → JsVal → Bool
  | nan, _ => false
  | _, nan => false
  | a, b => a == b

/-- ECMAScript `ToString` of a scalar, as used by a template literal. An
integer is written in decimal, which is what JavaScript does for magnitudes
below `10^21`. -/
def toJsString : JsVal → String
  | undefined => "undefined"
  | null => "null"
  | bool b => if b then "true" else "false"
  | num n => if n < 0 then "-" ++ Nat.repr n.natAbs else Nat.repr n.natAbs
  | nan => "NaN"
  | inf negative => if negative then "-Infinity" else "Infinity"
  | str s => s

end JsVal

/-- A flat JSON object: its own properties in order. -/
abbrev Obj := List (String × JsVal)

/-- Property read `o.k`: the value of the property, `undefined` when absent. -/
def Obj.get (o : Obj) (k : String) : JsVal :=
  match List.lookup k o with
  | some v => v
  | none => JsVal.undefined

/-- ECMAScript `WhiteSpace` and `LineTerminator` code points, the characters
removed by `String.prototype.trim` and skipped by `parseInt`. -/
def isWhiteSpace (c : Char) : Bool :=
  let n := c.toNat
  n == 9 || n == 10 || n == 11 || n == 12 || n == 13 || n == 32 || n == 160 ||
  n == 5760 || (8192 ≤ n && n ≤ 8202) || n == 8232 || n == 8233 || n == 8239 ||
  n == 8287 || n == 12288 || n == 65279

/-- The method `String.prototype.trim`. -/
def trim (s : String) : String :=
  String.mk ((s.data.dropWhile isWhiteSpace).reverse.dropWhile isWhiteSpace).reverse

/-- Value of a character as a digit in the given radix, if it is one. -/
def digitVal (radix : Nat) (c : Char) : Option Nat :=
  let n := c.toNat
  let v : Option Nat :=
    if 48 ≤ n ∧ n ≤ 57 then some (n - 48)
    else if 97 ≤ n ∧ n ≤ 122 then some (n - 87)
    else if 65 ≤ n ∧ n ≤ 90 then some (n - 55)
    else none
  match v with
  | some d => if d < radix then some d else none
  | none => none

/-- The longest leading run of radix digits, as digit values. -/
def takeDigits (radix : Nat) : List Char → List Nat
  | [] => []
  | c :: cs =>
    match digitVal radix c with
    | some d => d :: takeDigits radix cs
    | none => []

/-- Mathematical value of a digit sequence, most significant first. -/
def digitsValue (radix : Nat) (ds : List Nat) : Nat :=
  ds.foldl (fun acc d => acc * radix + d) 0

/-- The double nearest to a natural number, as a natural number: exact below
`2^53`, otherwise rounded to 53 significant bits with ties to the even
significand; `none` when the rounded value reaches `2^1024` (Infinity). -/
def toDouble (m : Nat) : Option Nat :=
  if m < 2 ^ 53 then some m
  else
    let e := Nat.log2 m - 52
    let q := m / 2 ^ e
    let r := m % 2 ^ e
    let half := 2 ^ (e - 1)
    let q1 := if half < r ∨ (r = half ∧ q % 2 = 1) then q + 1 else q
    if q1 * 2 ^ e < 2 ^ 1024 then some (q1 * 2 ^ e) else none

/-- Steps 6 to 11 of `parseInt` with no radix argument: an optional `0x`/`0X`
selects radix 16, then the leading digits are read; no digit gives `NaN`. The
mathematical value is converted to a number, that is rounded to a double. -/
def parseMagnitude (negative : Bool) (cs : List Char) : JsVal :=
  let hex : Bool :=
    match cs with
    | c0 :: c1 :: _ => c0 == '0' && (c1 == 'x' || c1 == 'X')
    | _ => false
  let radix := if hex then 16 else 10
  let rest := if hex then cs.drop 2 else cs
  match takeDigits radix rest with
  | [] => JsVal.nan
  | d :: ds =>
    match toDouble (digitsValue radix (d :: ds)) with
    | some v => JsVal.num (if negative then -(v : Int) else (v : Int))
    | none => JsVal.inf negative

/-- The global function `parseInt(string)` on a string argument: leading white
space is skipped, an optional sign is read, then the magnitude. -/
def parseInt (s : String) : JsVal :=
  match s.data.dropWhile isWhiteSpace with
  | [] => JsVal.nan
  | c :: cs =>
    if c == '-' then parseMagnitude true cs
    else if c == '+' then parseMagnitude false cs
    else parseMagnitude false (c :: cs)

/-! ## The server: `server.js` -/

/-- A statement handed to `pool.query(sql, values)`: the SQL text and the list
of values bound to its `?` placeholders. -/
structure Query where
  sql : String
  params : List JsVal
  deriving DecidableEq, Repr

/-- The error a rejected `pool.query` carries. -/
structure StoreError where
  code : String
  message : String
  deriving DecidableEq, Repr

/-- The result header the driver resolves a data-changing statement with. -/
structure ResultSetHeader where
  insertId : Nat
  affectedRows : Nat
  deriving DecidableEq, Repr

/-- Body of an HTTP response: `res.json(object)`, `res.json(array)` or
`res.send()` with nothing. -/
inductive Body where
  | json (o : Obj)
  | arr (items : List Obj)
  | empty
  deriving DecidableEq, Repr

/-- An HTTP response: status code and body. -/
structure Response where
  status : Nat
  body : Body
  deriving DecidableEq, Repr

/-- The JSON body `{ error: msg }`. -/
def errorBody (msg : String) : Body :=
  Body.json [("error", JsVal.str msg)]

/-- What a handler does with a request: answer at once, or issue one statement
to the pool and answer from its outcome. A `SELECT` resolves with the rows, a
data-changing statement with a result header; a rejection carries the error. -/
inductive Step where
  | respond (r : Response)
  | select (q : Query) (k : Except StoreError (List Obj) → Response)
  | exec (q : Query) (k : Except StoreError ResultSetHeader → Response)

/-- The handler `app.get('/tasks')`. -/
def getTasks : Step :=
  Step.select ⟨"SELECT * FROM tasks ORDER BY id ASC", []⟩ fun
    | Except.ok rows => ⟨200, Body.arr rows⟩
    | Except.error _ => ⟨500, errorBody "Gagal mengambil data"⟩

/-- The handler `app.post('/tasks')` on the parsed request body. -/
def postTasks (body : Obj) : Step :=
  let text := body.get "text"
  if !text.truthy then
    Step.respond ⟨400, errorBody "Teks tugas tidak boleh kosong"⟩
  else
    Step.exec ⟨"INSERT INTO tasks (text) VALUES (?)", [text]⟩ fun
      | Except.ok result =>
        ⟨201, Body.json [("id", JsVal.num result.insertId), ("text", text)]⟩
      | Except.error _ => ⟨500, errorBody "Gagal menambah data"⟩

/-- The handler `app.put('/tasks/:id')` on the path parameter and the parsed
request body. -/
def putTask (id : String) (body : Obj) : Step :=
  let text := body.get "text"
  if !text.truthy then
    Step.respond ⟨400, errorBody "Teks tugas tidak boleh kosong"⟩
  else
    Step.exec ⟨"UPDATE tasks SET text = ? WHERE id = ?", [text, JsVal.str id]⟩ fun
      | Except.ok result =>
        if result.affectedRows = 0 then
          ⟨404, errorBody "Tugas tidak ditemukan"⟩
        else
          ⟨200, Body.json [("id", parseInt id), ("text", text)]⟩
      | Except.error _ => ⟨500, errorBody "Gagal mengupdate data"⟩

/-- The handler `app.delete('/tasks/:id')` on the path parameter. -/
def deleteTask (id : String) : Step :=
  Step.exec ⟨"DELETE FROM tasks WHERE id = ?", [JsVal.str id]⟩ fun
    | Except.ok result =>
      if result.affectedRows = 0 then
        ⟨404, errorBody "Tugas tidak ditemukan"⟩
      else
        ⟨204, Body.empty⟩
    | Except.error _ => ⟨500, errorBody "Gagal menghapus data"⟩

/-- The four routes registered on the application. -/
inductive Route where
  | getTasks
  | postTasks
  | putTask
  | deleteTask
  deriving DecidableEq, Repr

/-- A request that reaches one of the routes, with what the handler reads of
it: the path parameter and the parsed JSON body. -/
inductive Request where
  | getTasks
  | postTasks (body : Obj)
  | putTask (id : String) (body : Obj)
  | deleteTask (id : String)
  deriving DecidableEq, Repr

/-- The route a request is dispatched to. -/
def Request.route : Request → Route
  | Request.getTasks => Route.getTasks
  | Request.postTasks _ => Route.postTasks
  | Request.putTask _ _ => Route.putTask
  | Request.deleteTask _ => Route.deleteTask

/-- Dispatch of a request to its handler. -/
def handle : Request → Step
  | Request.getTasks => getTasks
  | Request.postTasks body => postTasks body
  | Request.putTask id body => putTask id body
  | Request.deleteTask id => deleteTask id

/-- The statement a step issues to the pool, if any. -/
def Step.issued : Step → Option Query
  | Step.respond _ => none
  | Step.select q _ => some q
  | Step.exec q _ => some q

/-! ## The data store -/

/-- A row of the table `tasks(id, text)`. -/
structure Row where
  id : Nat
  text : String
  deriving DecidableEq, Repr

instance : IsTotal Row (fun a b => a.id ≤ b.id) :=
  ⟨fun a b => Nat.le_total a.id b.id⟩

instance : IsTrans Row (fun a b => a.id ≤ b.id) :=
  ⟨fun _ _ _ h1 h2 => Nat.le_trans h1 h2⟩

/-- The object the driver delivers for a row. -/
def Row.toObj (r : Row) : Obj :=
  [("id", JsVal.num r.id), ("text", JsVal.str r.text)]

/-- Modelled from the spec: the data store, an external collaborator of the
repository. It is the table `tasks(id INTEGER PRIMARY KEY AUTO-INCREMENT,
text TEXT)`: the rows it holds and the next value of the auto-increment
counter. -/
structure Store where
  rows : List Row
  nextId : Nat
  deriving DecidableEq, Repr

/-- Modelled from the spec: the table constraints. The ids are pairwise
distinct (primary key) and all below the auto-increment counter. -/
def Store.WF (s : Store) : Prop :=
  (s.rows.map Row.id).Nodup ∧ ∀ r ∈ s.rows, r.id < s.nextId

instance (s : Store) : Decidable s.WF := by
  unfold Store.WF
  infer_instance

/-- Modelled from the spec: the value a bound parameter has in the `text`
column. A string is kept as it is, a number is written in decimal, a boolean
is 1 or 0; the remaining values are not text of the model. -/
def sqlText : JsVal → Option String
  | JsVal.str s => some s
  | JsVal.num n => some (JsVal.toJsString (JsVal.num n))
  | JsVal.bool b => some (if b then "1" else "0")
  | _ => none

/-- Modelled from the spec: the integer a bound parameter denotes when it is
compared with the `id` column. How the store reads a string is a parameter
`readId` of the model. -/
def sqlId (readId : String → Option Nat) : JsVal → Option Nat
  | JsVal.str p => readId p
  | JsVal.num n => if 0 ≤ n then some n.toNat else none
  | _ => none

/-- The error of a statement the model of the store does not execute. -/
def unsupported : StoreError :=
  ⟨"ER_UNSUPPORTED", "statement outside the model"⟩

/-- Modelled from the spec: `select all rows ordered by id ascending`. -/
def Store.runSelect (s : Store) (q : Query) : Except StoreError (List Obj) :=
  if q.sql = "SELECT * FROM tasks ORDER BY id ASC" then
    Except.ok ((s.rows.insertionSort (fun a b => a.id ≤ b.id)).map Row.toObj)
  else
    Except.error unsupported

/-- Modelled from the spec: `insert row` (the store assigns the next
auto-increment id), `update row where id matches` and `delete row where id
matches`. The header reports the assigned id and the number of rows the
`WHERE` clause matched. -/
def Store.runExec (readId : String → Option Nat) (s : Store) (q : Query) :
    Except StoreError (ResultSetHeader × Store) :=
  if q.sql = "INSERT INTO tasks (text) VALUES (?)" then
    match q.params with
    | [v] =>
      match sqlText v with
      | some t => Except.ok (⟨s.nextId, 1⟩, ⟨s.rows ++ [⟨s.nextId, t⟩], s.nextId + 1⟩)
      | none => Except.error unsupported
    | _ => Except.error unsupported
  else if q.sql = "UPDATE tasks SET text = ? WHERE id = ?" then
    match q.params with
    | [v, i] =>
      match sqlText v with
      | some t =>
        let hit : Row → Bool := fun r => sqlId readId i == some r.id
        Except.ok (⟨0, (s.rows.filter hit).length⟩,
          ⟨s.rows.map (fun r => if hit r then ⟨r.id, t⟩ else r), s.nextId⟩)
      | none => Except.error unsupported
    | _ => Except.error unsupported
  else if q.sql = "DELETE FROM tasks WHERE id = ?" then
    match q.params with
    | [i] =>
      let hit : Row → Bool := fun r => sqlId readId i == some r.id
      Except.ok (⟨0, (s.rows.filter hit).length⟩,
        ⟨s.rows.filter (fun r => !hit r), s.nextId⟩)
    | _ => Except.error unsupported
  else
    Except.error unsupported

/-- One request served against the store. `fault` is the failure of the store
or of the connection during this request, if there is one: the statement is
then rejected with it and the table is left as it was. -/
def serve (readId : String → Option Nat) (fault : Option StoreError) (st : Step)
    (s : Store) : Response × Store :=
  match st with
  | Step.respond r => (r, s)
  | Step.select q k =>
    match fault with
    | some e => (k (Except.error e), s)
    | none => (k (s.runSelect q), s)
  | Step.exec q k =>
    match fault with
    | some e => (k (Except.error e), s)
    | none =>
      match s.runExec readId q with
      | Except.ok (h, s1) => (k (Except.ok h), s1)
      | Except.error e => (k (Except.error e), s)

/-- A store coercion that reads the decimal numerals and nothing else. -/
def readDecimal (p : String) : Option Nat :=
  if p.data ≠ [] ∧ (takeDigits 10 p.data).length = p.data.length then
    some (digitsValue 10 (takeDigits 10 p.data))
  else
    none

/-- A store coercion that reads decimal digits with an optional exponent part
(`e` or `E` followed by decimal digits) as the number they denote, the way
MySQL converts such a string when it compares it with an integer column;
other strings are not read. -/
def readScientific (p : String) : Option Nat :=
  let m := takeDigits 10 p.data
  match m, p.data.drop m.length with
  | [], _ => none
  | _ :: _, [] => some (digitsValue 10 m)
  | _ :: _, c :: es =>
    let k := takeDigits 10 es
    if (c == 'e' || c == 'E') ∧ k ≠ [] ∧ k.length = es.length then
      some (digitsValue 10 m * 10 ^ digitsValue 10 k)
    else
      none

/-- A decimal digit character. -/
def IsDecimal (c : Char) : Prop := 48 ≤ c.toNat ∧ c.toNat ≤ 57

instance : DecidablePred IsDecimal := fun c => by
  unfold IsDecimal
  infer_instance

/-! ## The client: `app.jsx` -/

/-- The state of the `App` component. -/
structure ClientState where
  tasks : List Obj
  inputText : String
  editingId : JsVal
  deriving DecidableEq, Repr

/-- The request a `fetch` call sends. -/
structure HttpRequest where
  method : String
  url : String
  body : Option Obj
  deriving DecidableEq, Repr

/-- The outcome of `fetch` followed by `response.json()`: the promise is
rejected (network error), or a response of some status arrives whose body
parses as a JSON object (`some`), or whose body does not parse (`none`, then
`response.json()` rejects). The server answers with objects only; bodies that
parse as something else are not part of the model. -/
inductive FetchResult where
  | rejected
  | response (status : Nat) (data : Option Obj)
  deriving DecidableEq, Repr

/-- What an event handler does: finish with a state, or send one request and
compute the state from its outcome. -/
inductive Action where
  | done (s : ClientState)
  | fetch (req : HttpRequest) (k : FetchResult → ClientState)

/-- The constant `API_URL`; it names port 4000, the default of `server.js`,
while the comment above it in `app.jsx` speaks of port 3000. -/
def API_URL : String := "http://localhost:4000/tasks"

/-- The handler `handleSubmit`. -/
def handleSubmit (st : ClientState) : Action :=
  if !(JsVal.str (trim st.inputText)).truthy then
    Action.done st
  else if st.editingId ≠ JsVal.null then
    Action.fetch
      ⟨"PUT", API_URL ++ "/" ++ st.editingId.toJsString,
        some [("text", JsVal.str st.inputText)]⟩ fun
      | FetchResult.response _ (some updatedTask) =>
        { tasks := st.tasks.map fun task =>
            if (task.get "id").strictEq st.editingId then updatedTask else task,
          inputText := "",
          editingId := JsVal.null }
      | _ => { st with inputText := "" }
  else
    Action.fetch ⟨"POST", API_URL, some [("text", JsVal.str st.inputText)]⟩ fun
      | FetchResult.response _ (some newTask) =>
        { st with tasks := st.tasks ++ [newTask], inputText := "" }
      | _ => { st with inputText := "" }

/-- The handler `handleDelete`; `confirmed` is the answer of
`window.confirm`. The body of the response is not read. -/
def handleDelete (st : ClientState) (confirmed : Bool) (id : JsVal) : Action :=
  if confirmed then
    Action.fetch ⟨"DELETE", API_URL ++ "/" ++ id.toJsString, none⟩ fun
      | FetchResult.response _ _ =>
        { st with tasks := st.tasks.filter fun task => !(task.get "id").strictEq id }
      | FetchResult.rejected => st
  else
    Action.done st

/-- The request an action sends, if any. -/
def Action.sent : Action → Option HttpRequest
  | Action.done _ => none
  | Action.fetch req _ => some req

/-- The state after the action, given the outcome of its request. -/
def Action.finish (r : FetchResult) : Action → ClientState
  | Action.done s => s
  | Action.fetch _ k => k r

/-! ## Properties of the handlers -/

theorem truthy_of_lookup_str {body : Obj} {t : String}
    (h : List.lookup "text" body = some (JsVal.str t)) (ht : t ≠ "") :
    (body.get "text") = JsVal.str t ∧ (JsVal.str t).truthy = true := by
  have hg : body.get "text" = JsVal.str t := by simp [Obj.get, h]
  refine ⟨hg, ?_⟩
  simp [JsVal.truthy, ht]

/-- C1: a POST /tasks whose body has no `text`, or the empty string as `text`,
is answered 400 with the validation error; the handler issues no statement, so
whatever the condition of the store the rows are as before. -/
theorem post_without_text_rejected (readId : String → Option Nat)
    (fault : Option StoreError) (body : Obj) (s : Store)
    (h : List.lookup "text" body = none ∨
      List.lookup "text" body = some (JsVal.str "")) :
    (handle (Request.postTasks body)).issued = none ∧
    serve readId fault (handle (Request.postTasks body)) s =
      (⟨400, errorBody "Teks tugas tidak boleh kosong"⟩, s) := by
  have ht : (body.get "text").truthy = false := by
    rcases h with h | h <;> simp [Obj.get, h, JsVal.truthy]
  simp [handle, postTasks, ht, Step.issued, serve]

theorem post_without_text_rejected_witness :
    (List.lookup "text" ([] : Obj) = none ∨
      List.lookup "text" ([] : Obj) = some (JsVal.str "")) ∧
    (handle (Request.postTasks [])).issued = none ∧
    serve readDecimal none (handle (Request.postTasks [])) ⟨[⟨1, "a"⟩], 2⟩ =
      (⟨400, errorBody "Teks tugas tidak boleh kosong"⟩, ⟨[⟨1, "a"⟩], 2⟩) :=
  ⟨Or.inl rfl,
    post_without_text_rejected readDecimal none [] ⟨[⟨1, "a"⟩], 2⟩ (Or.inl rfl)⟩

/-- C6: two requests to the same route that reach the store hand it the same
SQL text; what comes from the request (the text, the path id) is found in the
list of bound parameters only. -/
theorem sql_text_independent_of_request (r1 r2 : Request) (q1 q2 : Query)
    (hroute : r1.route = r2.route)
    (h1 : (handle r1).issued = some q1) (h2 : (handle r2).issued = some q2) :
    q1.sql = q2.sql ∧
    q1.params =
      (match r1 with
        | Request.getTasks => []
        | Request.postTasks body => [body.get "text"]
        | Request.putTask id body => [body.get "text", JsVal.str id]
        | Request.deleteTask id => [JsVal.str id]) := by
  cases r1 <;> cases r2 <;> simp [Request.route] at hroute
  · simp only [handle, getTasks, Step.issued, Option.some.injEq] at h1 h2
    subst h1 h2
    exact ⟨rfl, rfl⟩
  · rename_i b1 b2
    simp only [handle, postTasks] at h1 h2
    split at h1 <;> simp only [Step.issued, Option.some.injEq] at h1 <;> try contradiction
    split at h2 <;> simp only [Step.issued, Option.some.injEq] at h2 <;> try contradiction
    subst h1 h2
    exact ⟨rfl, rfl⟩
  · rename_i i1 b1 i2 b2
    simp only [handle, putTask] at h1 h2
    split at h1 <;> simp only [Step.issued, Option.some.injEq] at h1 <;> try contradiction
    split at h2 <;> simp only [Step.issued, Option.some.injEq] at h2 <;> try contradiction
    subst h1 h2
    exact ⟨rfl, rfl⟩
  · simp only [handle, deleteTask, Step.issued, Option.some.injEq] at h1 h2
    subst h1 h2
    exact ⟨rfl, rfl⟩

theorem sql_text_independent_of_request_witness :
    (Request.putTask "1" [("text", JsVal.str "a")]).route =
      (Request.putTask "7" [("text", JsVal.str "x = y")]).route ∧
    (⟨"UPDATE tasks SET text = ? WHERE id = ?", [JsVal.str "a", JsVal.str "1"]⟩ :
        Query).sql =
      (⟨"UPDATE tasks SET text = ? WHERE id = ?", [JsVal.str "x = y", JsVal.str "7"]⟩ :
        Query).sql ∧
    (⟨"UPDATE tasks SET text = ? WHERE id = ?", [JsVal.str "a", JsVal.str "1"]⟩ :
        Query).params = [Obj.get [("text", JsVal.str "a")] "text", JsVal.str "1"] :=
  ⟨rfl,
    sql_text_independent_of_request
      (Request.putTask "1" [("text", JsVal.str "a")])
      (Request.putTask "7" [("text", JsVal.str "x = y")])
      ⟨"UPDATE tasks SET text = ? WHERE id = ?", [JsVal.str "a", JsVal.str "1"]⟩
      ⟨"UPDATE tasks SET text = ? WHERE id = ?", [JsVal.str "x = y", JsVal.str "7"]⟩
      rfl (by decide) (by decide)⟩

/-- C10: a request that reaches the store (any GET or DELETE, a POST or PUT
whose text passes the validation) while the store fails is answered 500 with
the fixed error body of its route, and the table is left as it was; so two
store failures on the same route, whatever the two errors and the two
requests, get the same status and the same body. -/
theorem store_failure_response_fixed (readId : String → Option Nat)
    (r1 r2 : Request) (e1 e2 : StoreError) (s1 s2 : Store)
    (hroute : r1.route = r2.route)
    (h1 : match r1 with
      | Request.postTasks body => (body.get "text").truthy = true
      | Request.putTask _ body => (body.get "text").truthy = true
      | _ => True)
    (h2 : match r2 with
      | Request.postTasks body => (body.get "text").truthy = true
      | Request.putTask _ body => (body.get "text").truthy = true
      | _ => True) :
    serve readId (some e1) (handle r1) s1 =
      (⟨500, errorBody (match r1.route with
        | Route.getTasks => "Gagal mengambil data"
        | Route.postTasks => "Gagal menambah data"
        | Route.putTask => "Gagal mengupdate data"
        | Route.deleteTask => "Gagal menghapus data")⟩, s1) ∧
    (serve readId (some e1) (handle r1) s1).1 = (serve readId (some e2) (handle r2) s2).1 := by
  cases r1 <;> cases r2 <;> simp only [Request.route, reduceCtorEq] at hroute
  · exact ⟨rfl, rfl⟩
  · simp only at h1 h2
    simp [handle, postTasks, serve, Request.route, h1, h2]
  · simp only at h1 h2
    simp [handle, putTask, serve, Request.route, h1, h2]
  · exact ⟨rfl, rfl⟩

theorem store_failure_response_fixed_witness :
    serve readDecimal (some ⟨"ECONNRESET", "read ECONNRESET"⟩)
        (handle Request.getTasks) ⟨[⟨1, "a"⟩], 2⟩ =
      (⟨500, errorBody "Gagal mengambil data"⟩, ⟨[⟨1, "a"⟩], 2⟩) ∧
    serve readDecimal (some ⟨"ER_LOCK_DEADLOCK", "Deadlock found"⟩)
        (handle (Request.postTasks [("text", JsVal.str "b")])) ⟨[⟨1, "a"⟩], 2⟩ =
      (⟨500, errorBody "Gagal menambah data"⟩, ⟨[⟨1, "a"⟩], 2⟩) ∧
    serve readDecimal (some ⟨"ECONNRESET", "read ECONNRESET"⟩)
        (handle (Request.putTask "1" [("text", JsVal.str "b")])) ⟨[⟨1, "a"⟩], 2⟩ =
      (⟨500, errorBody "Gagal mengupdate data"⟩, ⟨[⟨1, "a"⟩], 2⟩) ∧
    serve readDecimal (some ⟨"PROTOCOL_CONNECTION_LOST", "Connection lost"⟩)
        (handle (Request.deleteTask "1")) ⟨[⟨1, "a"⟩], 2⟩ =
      (⟨500, errorBody "Gagal menghapus data"⟩, ⟨[⟨1, "a"⟩], 2⟩) ∧
    (serve readDecimal (some ⟨"ECONNRESET", "read ECONNRESET"⟩)
        (handle Request.getTasks) ⟨[⟨1, "a"⟩], 2⟩).1 =
      (serve readDecimal (some ⟨"ER_LOCK_DEADLOCK", "Deadlock found"⟩)
        (handle Request.getTasks) ⟨[], 1⟩).1 :=
  ⟨(store_failure_response_fixed readDecimal Request.getTasks Request.getTasks
      ⟨"ECONNRESET", "read ECONNRESET"⟩ ⟨"ER_LOCK_DEADLOCK", "Deadlock found"⟩
      ⟨[⟨1, "a"⟩], 2⟩ ⟨[], 1⟩ rfl trivial trivial).1,
    (store_failure_response_fixed readDecimal
      (Request.postTasks [("text", JsVal.str "b")])
      (Request.postTasks [("text", JsVal.str "c")])
      ⟨"ER_LOCK_DEADLOCK", "Deadlock found"⟩ ⟨"ECONNRESET", "read ECONNRESET"⟩
      ⟨[⟨1, "a"⟩], 2⟩ ⟨[], 1⟩ rfl rfl rfl).1,
    (store_failure_response_fixed readDecimal
      (Request.putTask "1" [("text", JsVal.str "b")])
      (Request.putTask "7" [("text", JsVal.str "c")])
      ⟨"ECONNRESET", "read ECONNRESET"⟩ ⟨"ER_LOCK_DEADLOCK", "Deadlock found"⟩
      ⟨[⟨1, "a"⟩], 2⟩ ⟨[], 1⟩ rfl rfl rfl).1,
    (store_failure_response_fixed readDecimal (Request.deleteTask "1")
      (Request.deleteTask "2")
      ⟨"PROTOCOL_CONNECTION_LOST", "Connection lost"⟩ ⟨"ECONNRESET", "read ECONNRESET"⟩
      ⟨[⟨1, "a"⟩], 2⟩ ⟨[], 1⟩ rfl trivial trivial).1,
    (store_failure_response_fixed readDecimal Request.getTasks Request.getTasks
      ⟨"ECONNRESET", "read ECONNRESET"⟩ ⟨"ER_LOCK_DEADLOCK", "Deadlock found"⟩
      ⟨[⟨1, "a"⟩], 2⟩ ⟨[], 1⟩ rfl trivial trivial).2⟩

/-! ## Properties of the client -/

/-- C7, counterexample: with `" a "` typed while task 1 is being edited, the
body of the update request carries `" a "`, not the trimmed `"a"`. -/
theorem submit_update_trimmed_counterexample :
    trim " a " ≠ "" ∧
    (handleSubmit ⟨[], " a ", JsVal.num 1⟩).sent =
      some ⟨"PUT", "http://localhost:4000/tasks/1", some [("text", JsVal.str " a ")]⟩ ∧
    JsVal.str " a " ≠ JsVal.str (trim " a ") := by
  decide

/-- C7, amended: a Submit with non-blank input while a task is being edited
sends a PUT for that id whose body carries the input text as typed; `trim`
serves the blank test only. -/
theorem submit_update_sends_input_text (st : ClientState)
    (hblank : trim st.inputText ≠ "") (hedit : st.editingId ≠ JsVal.null) :
    (handleSubmit st).sent =
      some ⟨"PUT", API_URL ++ "/" ++ st.editingId.toJsString,
        some [("text", JsVal.str st.inputText)]⟩ := by
  simp [handleSubmit, JsVal.truthy, hblank, hedit, Action.sent]

theorem submit_update_sends_input_text_witness :
    trim " a " ≠ "" ∧ JsVal.num 1 ≠ JsVal.null ∧
    (handleSubmit ⟨[], " a ", JsVal.num 1⟩).sent =
      some ⟨"PUT", API_URL ++ "/" ++ (JsVal.num 1).toJsString,
        some [("text", JsVal.str " a ")]⟩ :=
  ⟨by decide, by decide,
    submit_update_sends_input_text ⟨[], " a ", JsVal.num 1⟩ (by decide) (by decide)⟩

/-- C8, counterexample: the store fails during a create, the server answers
500 with its error object, and the client appends that object to `tasks`; an
update answered 404 replaces the edited entry by the error object and clears
`editingId`. -/
theorem submit_error_status_counterexample :
    (serve readDecimal (some ⟨"ECONNRESET", "read ECONNRESET"⟩)
      (handle (Request.postTasks [("text", JsVal.str "b")])) ⟨[⟨1, "a"⟩], 2⟩).1 =
      ⟨500, Body.json [("error", JsVal.str "Gagal menambah data")]⟩ ∧
    ((handleSubmit ⟨[Row.toObj ⟨1, "a"⟩], "b", JsVal.null⟩).finish
      (FetchResult.response 500 (some [("error", JsVal.str "Gagal menambah data")]))).tasks =
      [Row.toObj ⟨1, "a"⟩, [("error", JsVal.str "Gagal menambah data")]] ∧
    ((handleSubmit ⟨[Row.toObj ⟨1, "a"⟩], "b", JsVal.null⟩).finish
      (FetchResult.response 500 (some [("error", JsVal.str "Gagal menambah data")]))).tasks ≠
      [Row.toObj ⟨1, "a"⟩] ∧
    (serve readDecimal none
      (handle (Request.putTask "1" [("text", JsVal.str "b")])) ⟨[], 2⟩).1 =
      ⟨404, Body.json [("error", JsVal.str "Tugas tidak ditemukan")]⟩ ∧
    (handleSubmit ⟨[Row.toObj ⟨1, "a"⟩], "b", JsVal.num 1⟩).finish
      (FetchResult.response 404 (some [("error", JsVal.str "Tugas tidak ditemukan")])) =
      ⟨[[("error", JsVal.str "Tugas tidak ditemukan")]], "", JsVal.null⟩ ∧
    ((handleSubmit ⟨[Row.toObj ⟨1, "a"⟩], "b", JsVal.num 1⟩).finish
      (FetchResult.response 404 (some [("error", JsVal.str "Tugas tidak ditemukan")]))).tasks ≠
      [Row.toObj ⟨1, "a"⟩] ∧
    ((handleSubmit ⟨[Row.toObj ⟨1, "a"⟩], "b", JsVal.num 1⟩).finish
      (FetchResult.response 404 (some [("error", JsVal.str "Tugas tidak ditemukan")]))).editingId ≠
      JsVal.num 1 := by
  decide

/-- C8, amended: a Submit whose request fails by a network error (the `fetch`
promise is rejected) or whose response body does not parse leaves `tasks` and
`editingId` as they were. -/
theorem submit_rejected_keeps_state (st : ClientState) (r : FetchResult)
    (hr : r = FetchResult.rejected ∨ ∃ status, r = FetchResult.response status none) :
    ((handleSubmit st).finish r).tasks = st.tasks ∧
    ((handleSubmit st).finish r).editingId = st.editingId := by
  unfold handleSubmit
  rcases hr with hr | ⟨status, hr⟩ <;> subst hr <;>
    split <;> (try split) <;> simp [Action.finish]

theorem submit_rejected_keeps_state_witness :
    (FetchResult.rejected = FetchResult.rejected ∨
      ∃ status, FetchResult.rejected = FetchResult.response status none) ∧
    ((handleSubmit ⟨[Row.toObj ⟨1, "a"⟩], "b", JsVal.num 1⟩).finish
      FetchResult.rejected).tasks = [Row.toObj ⟨1, "a"⟩] ∧
    ((handleSubmit ⟨[Row.toObj ⟨1, "a"⟩], "b", JsVal.num 1⟩).finish
      FetchResult.rejected).editingId = JsVal.num 1 :=
  ⟨Or.inl rfl,
    submit_rejected_keeps_state ⟨[Row.toObj ⟨1, "a"⟩], "b", JsVal.num 1⟩
      FetchResult.rejected (Or.inl rfl)⟩

/-- C9, counterexample: a confirmed Delete of id 1 that the server answers
with 404 (or 500) still removes the entry from `tasks`. -/
theorem delete_error_status_counterexample :
    (serve readDecimal none (handle (Request.deleteTask "1")) ⟨[], 2⟩).1 =
      ⟨404, Body.json [("error", JsVal.str "Tugas tidak ditemukan")]⟩ ∧
    ((handleDelete ⟨[Row.toObj ⟨1, "a"⟩], "", JsVal.null⟩ true (JsVal.num 1)).finish
      (FetchResult.response 404 (some [("error", JsVal.str "Tugas tidak ditemukan")]))).tasks =
      [] ∧
    ((handleDelete ⟨[Row.toObj ⟨1, "a"⟩], "", JsVal.null⟩ true (JsVal.num 1)).finish
      (FetchResult.response 404 (some [("error", JsVal.str "Tugas tidak ditemukan")]))).tasks ≠
      [Row.toObj ⟨1, "a"⟩] ∧
    ((handleDelete ⟨[Row.toObj ⟨1, "a"⟩], "", JsVal.null⟩ true (JsVal.num 1)).finish
      (FetchResult.response 500 (some [("error", JsVal.str "Gagal menghapus data")]))).tasks ≠
      [Row.toObj ⟨1, "a"⟩] := by
  decide

/-- C9, amended: a confirmed Delete whose request is answered, with whatever
status, leaves in `tasks` the entries whose id differs from the given one, in
their order; a declined Delete and one whose request fails by a network error
leave `tasks` unchanged. -/
theorem delete_updates_tasks (st : ClientState) (confirmed : Bool) (id : JsVal)
    (r : FetchResult) :
    (confirmed = true → (∃ status data, r = FetchResult.response status data) →
      ((handleDelete st confirmed id).finish r).tasks =
        st.tasks.filter (fun task => !(task.get "id").strictEq id)) ∧
    (confirmed = false ∨ r = FetchResult.rejected →
      ((handleDelete st confirmed id).finish r).tasks = st.tasks) := by
  constructor
  · rintro rfl ⟨status, data, rfl⟩
    simp [handleDelete, Action.finish]
  · rintro (rfl | rfl)
    · simp [handleDelete, Action.finish]
    · cases confirmed <;> simp [handleDelete, Action.finish]

theorem delete_updates_tasks_witness :
    ((handleDelete ⟨[Row.toObj ⟨1, "a"⟩, Row.toObj ⟨2, "b"⟩, Row.toObj ⟨3, "c"⟩], "",
        JsVal.null⟩ true (JsVal.num 2)).finish (FetchResult.response 204 none)).tasks =
      [Row.toObj ⟨1, "a"⟩, Row.toObj ⟨3, "c"⟩] ∧
    ((handleDelete ⟨[Row.toObj ⟨1, "a"⟩, Row.toObj ⟨2, "b"⟩, Row.toObj ⟨3, "c"⟩], "",
        JsVal.null⟩ true (JsVal.num 2)).finish FetchResult.rejected).tasks =
      [Row.toObj ⟨1, "a"⟩, Row.toObj ⟨2, "b"⟩, Row.toObj ⟨3, "c"⟩] :=
  ⟨(delete_updates_tasks
      ⟨[Row.toObj ⟨1, "a"⟩, Row.toObj ⟨2, "b"⟩, Row.toObj ⟨3, "c"⟩], "", JsVal.null⟩
      true (JsVal.num 2) (FetchResult.response 204 none)).1 rfl ⟨204, none, rfl⟩,
    (delete_updates_tasks
      ⟨[Row.toObj ⟨1, "a"⟩, Row.toObj ⟨2, "b"⟩, Row.toObj ⟨3, "c"⟩], "", JsVal.null⟩
      true (JsVal.num 2) FetchResult.rejected).2 (Or.inr rfl)⟩

/-! ## Decimal numerals -/

theorem digitChar_toNat (d : Nat) (h : d < 10) : (Nat.digitChar d).toNat = 48 + d := by
  interval_cases d <;> rfl

theorem digitVal_decimal {c : Char} (h : IsDecimal c) :
    digitVal 10 c = some (c.toNat - 48) := by
  unfold IsDecimal at h
  simp only [digitVal, h, and_self, if_true]
  have : c.toNat - 48 < 10 := by omega
  simp [this]

theorem takeDigits_decimal : ∀ cs : List Char, (∀ c ∈ cs, IsDecimal c) →
    takeDigits 10 cs = cs.map (fun c => c.toNat - 48)
  | [], _ => rfl
  | c :: cs, h => by
    have hc := digitVal_decimal (h c (List.mem_cons_self c cs))
    have ih := takeDigits_decimal cs (fun x hx => h x (List.mem_cons_of_mem c hx))
    simp [takeDigits, hc, ih]

theorem digitsValue_snoc (ds : List Nat) (d : Nat) :
    digitsValue 10 (ds ++ [d]) = digitsValue 10 ds * 10 + d := by
  simp [digitsValue, List.foldl_append]

theorem toDigitsCore_acc (fuel : Nat) : ∀ (n : Nat) (acc : List Char),
    Nat.toDigitsCore 10 fuel n acc = Nat.toDigitsCore 10 fuel n [] ++ acc := by
  induction fuel with
  | zero => intro n acc; simp [Nat.toDigitsCore]
  | succ f ih =>
    intro n acc
    simp only [Nat.toDigitsCore]
    split
    · simp
    · rw [ih (n / 10) (Nat.digitChar (n % 10) :: acc), ih (n / 10) [Nat.digitChar (n % 10)]]
      simp

theorem toDigitsCore_decimal (fuel : Nat) : ∀ n : Nat, n < fuel →
    (∀ c ∈ Nat.toDigitsCore 10 fuel n [], IsDecimal c) ∧
    digitsValue 10 ((Nat.toDigitsCore 10 fuel n []).map (fun c => c.toNat - 48)) = n ∧
    Nat.toDigitsCore 10 fuel n [] ≠ [] := by
  induction fuel with
  | zero => intro n h; omega
  | succ f ih =>
    intro n h
    have hd : (Nat.digitChar (n % 10)).toNat = 48 + n % 10 :=
      digitChar_toNat (n % 10) (Nat.mod_lt n (by decide))
    have hdec : IsDecimal (Nat.digitChar (n % 10)) := by
      unfold IsDecimal
      have := Nat.mod_lt n (show 10 > 0 by decide)
      omega
    simp only [Nat.toDigitsCore]
    split
    · rename_i h0
      refine ⟨?_, ?_, by simp⟩
      · intro c hc
        simp only [List.mem_singleton] at hc
        subst hc
        exact hdec
      · simp only [List.map_cons, List.map_nil, hd]
        simp only [digitsValue, List.foldl_cons, List.foldl_nil]
        omega
    · rename_i h0
      have hlt : n / 10 < f := by omega
      obtain ⟨h1, h2, h3⟩ := ih (n / 10) hlt
      rw [toDigitsCore_acc]
      refine ⟨?_, ?_, by simp [h3]⟩
      · intro c hc
        rcases List.mem_append.mp hc with hc | hc
        · exact h1 c hc
        · simp only [List.mem_singleton] at hc
          subst hc
          exact hdec
      · rw [List.map_append, List.map_cons, List.map_nil, digitsValue_snoc, h2, hd]
        omega

theorem repr_decimal (n : Nat) :
    (∀ c ∈ (Nat.repr n).data, IsDecimal c) ∧
    digitsValue 10 ((Nat.repr n).data.map (fun c => c.toNat - 48)) = n ∧
    (Nat.repr n).data ≠ [] :=
  toDigitsCore_decimal (n + 1) n (Nat.lt_succ_self n)

theorem not_whiteSpace_of_decimal {c : Char} (h : IsDecimal c) : isWhiteSpace c = false := by
  unfold IsDecimal at h
  simp only [isWhiteSpace, Bool.or_eq_false_iff, Bool.and_eq_false_iff, beq_eq_false_iff_ne,
    decide_eq_false_iff_not]
  omega

theorem ne_of_decimal {c d : Char} (h : IsDecimal c) (hd : ¬ IsDecimal d) : c ≠ d := by
  rintro rfl
  exact hd h

theorem toDouble_small (m : Nat) (h : m < 2 ^ 53) : toDouble m = some m := by
  unfold toDouble
  rw [if_pos h]

theorem parseMagnitude_decimal : ∀ cs : List Char, cs ≠ [] →
    (∀ c ∈ cs, IsDecimal c) →
    digitsValue 10 (cs.map (fun c => c.toNat - 48)) < 2 ^ 53 →
    parseMagnitude false cs =
      JsVal.num (digitsValue 10 (cs.map (fun c => c.toNat - 48)) : Nat)
  | [], h, _, _ => absurd rfl h
  | [c], _, hdec, hlt => by
    rw [List.map_cons, List.map_nil] at hlt
    simp [parseMagnitude, takeDigits_decimal [c] hdec, toDouble_small _ hlt]
  | c0 :: c1 :: rest, _, hdec, hlt => by
    have h1 : IsDecimal c1 := hdec c1 (by simp)
    have hx : c1 ≠ 'x' := ne_of_decimal h1 (by decide)
    have hX : c1 ≠ 'X' := ne_of_decimal h1 (by decide)
    rw [List.map_cons, List.map_cons] at hlt
    simp [parseMagnitude, hx, hX, takeDigits_decimal (c0 :: c1 :: rest) hdec,
      toDouble_small _ hlt]

/-- On the decimal numeral of a number below `2^53`, `parseInt` gives the number back. -/
theorem parseInt_repr (n : Nat) (hn : n < 2 ^ 53) : parseInt (Nat.repr n) = JsVal.num n := by
  obtain ⟨hdec, hval, hne⟩ := repr_decimal n
  unfold parseInt
  generalize (Nat.repr n).data = cs at hdec hval hne
  match cs, hne with
  | c :: cs, hne =>
    have hc : IsDecimal c := hdec c (by simp)
    have hminus : c ≠ '-' := ne_of_decimal hc (by decide)
    have hplus : c ≠ '+' := ne_of_decimal hc (by decide)
    simp only [List.dropWhile, not_whiteSpace_of_decimal hc, beq_iff_eq, hminus, hplus, if_false]
    rw [parseMagnitude_decimal (c :: cs) hne hdec (by rw [hval]; exact hn), hval]

theorem readDecimal_repr (n : Nat) : readDecimal (Nat.repr n) = some n := by
  obtain ⟨hdec, hval, hne⟩ := repr_decimal n
  unfold readDecimal
  rw [takeDigits_decimal _ hdec, hval]
  simp [hne]

/-! ## The handlers against the store -/

theorem get_id_toObj (r : Row) : (Row.toObj r).get "id" = JsVal.num r.id := by
  simp [Row.toObj, Obj.get, List.lookup]

theorem hit_read (readId : String → Option Nat) (p : String) (n : Nat)
    (hread : readId p = some n) (r : Row) :
    (sqlId readId (JsVal.str p) == some r.id) = decide (r.id = n) := by
  simp only [sqlId, hread]
  by_cases h : r.id = n
  · simp [h]
  · have h2 : ¬ n = r.id := fun e => h e.symm
    simp [h, h2]

theorem sorted_lt_of_nodup (l : List Row) (h : (l.map Row.id).Nodup) :
    (l.insertionSort (fun a b => a.id ≤ b.id)).Sorted (fun a b => a.id < b.id) := by
  have hs := List.sorted_insertionSort (fun a b : Row => a.id ≤ b.id) l
  have hp := List.perm_insertionSort (fun a b : Row => a.id ≤ b.id) l
  have hnd : ((l.insertionSort (fun a b => a.id ≤ b.id)).map Row.id).Nodup :=
    (hp.map Row.id).nodup_iff.mpr h
  have hne := List.pairwise_map.mp hnd
  exact (List.Pairwise.and hs hne).imp (fun h => Nat.lt_of_le_of_ne h.1 h.2)

theorem hit_count (n : Nat) : ∀ l : List Row, (l.map Row.id).Nodup →
    (∃ r ∈ l, r.id = n) → (l.filter (fun r => decide (r.id = n))).length = 1
  | [], _, h => by simp at h
  | a :: l, hnd, h => by
    rw [List.map_cons, List.nodup_cons] at hnd
    by_cases ha : a.id = n
    · have hnone : l.filter (fun r => decide (r.id = n)) = [] := by
        rw [List.filter_eq_nil_iff]
        intro r hr
        simp only [decide_eq_true_eq]
        intro hrn
        exact hnd.1 (List.mem_map.mpr ⟨r, hr, by rw [hrn, ha]⟩)
      simp [List.filter_cons, ha, hnone]
    · have hl : ∃ r ∈ l, r.id = n := by
        obtain ⟨r, hr, hrn⟩ := h
        rcases List.mem_cons.mp hr with rfl | hr
        · exact absurd hrn ha
        · exact ⟨r, hr, hrn⟩
      simp [List.filter_cons, ha, hit_count n l hnd.2 hl]

/-- The table constraints hold of the empty table. -/
theorem wf_empty (k : Nat) : (⟨[], k⟩ : Store).WF := by
  simp [Store.WF]

/-- An insert keeps the table constraints. -/
theorem wf_insert (s : Store) (t : String) (h : s.WF) :
    (⟨s.rows ++ [⟨s.nextId, t⟩], s.nextId + 1⟩ : Store).WF := by
  obtain ⟨hnd, hlt⟩ := h
  constructor
  · simp only [List.map_append, List.map_cons, List.map_nil]
    rw [List.nodup_append]
    refine ⟨hnd, List.nodup_singleton _, ?_⟩
    intro a ha hb
    simp only [List.mem_singleton] at hb
    obtain ⟨r, hr, rfl⟩ := List.mem_map.mp ha
    have := hlt r hr
    omega
  · intro r hr
    rcases List.mem_append.mp hr with hr | hr
    · exact Nat.lt_succ_of_lt (hlt r hr)
    · simp only [List.mem_singleton] at hr
      subst hr
      exact Nat.lt_succ_self _

/-- An update keeps the table constraints. -/
theorem wf_update (s : Store) (hit : Row → Bool) (t : String) (h : s.WF) :
    (⟨s.rows.map (fun r => if hit r = true then ⟨r.id, t⟩ else r), s.nextId⟩ : Store).WF := by
  have hid : (s.rows.map (fun r => if hit r = true then (⟨r.id, t⟩ : Row) else r)).map Row.id =
      s.rows.map Row.id := by
    rw [List.map_map]
    apply List.map_congr_left
    intro r _
    by_cases hr : hit r = true <;> simp [hr]
  constructor
  · show ((s.rows.map (fun r => if hit r = true then (⟨r.id, t⟩ : Row) else r)).map Row.id).Nodup
    rw [hid]
    exact h.1
  · intro r hr
    obtain ⟨r0, hr0, rfl⟩ := List.mem_map.mp hr
    have := h.2 r0 hr0
    by_cases hh : hit r0 = true <;> simpa [hh] using this

/-- A delete keeps the table constraints. -/
theorem wf_delete (s : Store) (keep : Row → Bool) (h : s.WF) :
    (⟨s.rows.filter keep, s.nextId⟩ : Store).WF :=
  ⟨h.1.sublist ((List.filter_sublist s.rows).map Row.id),
    fun r hr => h.2 r (List.mem_filter.mp hr).1⟩

/-- Every statement the store executes keeps the table constraints. -/
theorem runExec_wf (readId : String → Option Nat) (s s1 : Store) (q : Query)
    (hd : ResultSetHeader) (h : s.WF) (hq : s.runExec readId q = Except.ok (hd, s1)) :
    s1.WF := by
  unfold Store.runExec at hq
  split at hq
  · split at hq
    · split at hq
      · simp only [Except.ok.injEq, Prod.mk.injEq] at hq
        rw [← hq.2]
        exact wf_insert s _ h
      · exact absurd hq (by simp)
    · exact absurd hq (by simp)
  · split at hq
    · split at hq
      · split at hq
        · simp only [Except.ok.injEq, Prod.mk.injEq] at hq
          rw [← hq.2]
          exact wf_update s _ _ h
        · exact absurd hq (by simp)
      · exact absurd hq (by simp)
    · split at hq
      · split at hq
        · simp only [Except.ok.injEq, Prod.mk.injEq] at hq
          rw [← hq.2]
          exact wf_delete s _ h
        · exact absurd hq (by simp)
      · exact absurd hq (by simp)

/-- Serving a request keeps the table constraints, whatever the request and
whether or not the store fails. -/
theorem serve_wf (readId : String → Option Nat) (fault : Option StoreError)
    (req : Request) (s : Store) (h : s.WF) :
    (serve readId fault (handle req) s).2.WF := by
  unfold serve
  split
  · exact h
  · split <;> exact h
  · split
    · exact h
    · split
      · rename_i hq
        exact runExec_wf readId s _ _ _ h hq
      · exact h

/-- C2: a POST /tasks with a non-empty text, served by a store that does not
fail, appends exactly one row, whose id is the one the store assigns and whose
text is the input unchanged; no row present before has that id; the response
is 201 with that id and that text. -/
theorem post_creates_task (readId : String → Option Nat) (s : Store) (body : Obj)
    (t : String) (hwf : s.WF)
    (hbody : List.lookup "text" body = some (JsVal.str t)) (ht : t ≠ "") :
    serve readId none (handle (Request.postTasks body)) s =
      (⟨201, Body.json [("id", JsVal.num s.nextId), ("text", JsVal.str t)]⟩,
        ⟨s.rows ++ [⟨s.nextId, t⟩], s.nextId + 1⟩) ∧
    (∀ r ∈ s.rows, r.id ≠ s.nextId) ∧
    (⟨s.rows ++ [⟨s.nextId, t⟩], s.nextId + 1⟩ : Store).WF := by
  obtain ⟨hg, htr⟩ := truthy_of_lookup_str hbody ht
  refine ⟨?_, ?_, wf_insert s t hwf⟩
  · simp [handle, postTasks, htr, serve, Store.runExec, hg, sqlText]
  · intro r hr
    exact Nat.ne_of_lt (hwf.2 r hr)

theorem post_creates_task_witness :
    (⟨[⟨1, "a"⟩, ⟨4, "d"⟩], 5⟩ : Store).WF ∧
    serve readDecimal none (handle (Request.postTasks [("text", JsVal.str " buy milk ")]))
      ⟨[⟨1, "a"⟩, ⟨4, "d"⟩], 5⟩ =
      (⟨201, Body.json [("id", JsVal.num 5), ("text", JsVal.str " buy milk ")]⟩,
        ⟨[⟨1, "a"⟩, ⟨4, "d"⟩, ⟨5, " buy milk "⟩], 6⟩) :=
  ⟨by decide,
    (post_creates_task readDecimal ⟨[⟨1, "a"⟩, ⟨4, "d"⟩], 5⟩
      [("text", JsVal.str " buy milk ")] " buy milk " (by decide) rfl (by decide)).1⟩

/-- C4: a PUT /tasks/:id with a non-empty text whose id matches no row, served
by a store that does not fail, is answered 404 with the not-found error and
leaves the table as it was. -/
theorem put_unknown_id_not_found (readId : String → Option Nat) (s : Store)
    (id : String) (body : Obj) (t : String)
    (hbody : List.lookup "text" body = some (JsVal.str t)) (ht : t ≠ "")
    (hmiss : ∀ r ∈ s.rows, readId id ≠ some r.id) :
    serve readId none (handle (Request.putTask id body)) s =
      (⟨404, errorBody "Tugas tidak ditemukan"⟩, s) := by
  obtain ⟨hg, htr⟩ := truthy_of_lookup_str hbody ht
  have hnone : s.rows.filter (fun r => sqlId readId (JsVal.str id) == some r.id) = [] := by
    rw [List.filter_eq_nil_iff]
    intro r hr
    simpa [sqlId] using hmiss r hr
  have hmap : s.rows.map (fun r =>
      if (sqlId readId (JsVal.str id) == some r.id) = true then (⟨r.id, t⟩ : Row) else r) =
      s.rows := by
    conv_rhs => rw [← List.map_id s.rows]
    apply List.map_congr_left
    intro r hr
    have := hmiss r hr
    simp [sqlId, this]
  cases s with
  | mk rows nextId =>
    simp only [beq_iff_eq] at hnone hmap
    simp [handle, putTask, htr, serve, Store.runExec, hg, sqlText, hnone, hmap]

theorem put_unknown_id_not_found_witness :
    (∀ r ∈ (⟨[⟨1, "a"⟩, ⟨4, "d"⟩], 5⟩ : Store).rows, readDecimal "2" ≠ some r.id) ∧
    serve readDecimal none (handle (Request.putTask "2" [("text", JsVal.str "b")]))
      ⟨[⟨1, "a"⟩, ⟨4, "d"⟩], 5⟩ =
      (⟨404, errorBody "Tugas tidak ditemukan"⟩, ⟨[⟨1, "a"⟩, ⟨4, "d"⟩], 5⟩) :=
  ⟨by decide,
    put_unknown_id_not_found readDecimal ⟨[⟨1, "a"⟩, ⟨4, "d"⟩], 5⟩ "2"
      [("text", JsVal.str "b")] "b" rfl (by decide) (by decide)⟩

theorem runExec_update (readId : String → Option Nat) (s : Store) (t : String)
    (i : JsVal) :
    s.runExec readId ⟨"UPDATE tasks SET text = ? WHERE id = ?", [JsVal.str t, i]⟩ =
      Except.ok (⟨0, (s.rows.filter (fun r => sqlId readId i == some r.id)).length⟩,
        ⟨s.rows.map (fun r =>
          if (sqlId readId i == some r.id) = true then ⟨r.id, t⟩ else r), s.nextId⟩) := by
  rfl

theorem runExec_delete (readId : String → Option Nat) (s : Store) (i : JsVal) :
    s.runExec readId ⟨"DELETE FROM tasks WHERE id = ?", [i]⟩ =
      Except.ok (⟨0, (s.rows.filter (fun r => sqlId readId i == some r.id)).length⟩,
        ⟨s.rows.filter (fun r => !(sqlId readId i == some r.id)), s.nextId⟩) := by
  rfl

theorem serve_getTasks (readId : String → Option Nat) (s : Store) :
    serve readId none (handle Request.getTasks) s =
      (⟨200, Body.arr ((s.rows.insertionSort (fun a b => a.id ≤ b.id)).map Row.toObj)⟩, s) := by
  rfl

theorem filter_hit_ne_nil (n : Nat) (l : List Row) (h : ∃ r ∈ l, r.id = n) :
    (l.filter (fun r => decide (r.id = n))).length ≠ 0 := by
  obtain ⟨r, hr, hrn⟩ := h
  have hmem : r ∈ l.filter (fun r => decide (r.id = n)) :=
    List.mem_filter.mpr ⟨hr, by simp [hrn]⟩
  intro h0
  rw [List.length_eq_zero] at h0
  rw [h0] at hmem
  exact absurd hmem (List.not_mem_nil r)

/-- A PUT /tasks/:id with a non-empty text whose path id the store reads as
the id `n` of an existing row, served by a store that does not fail: the rows
of id `n` get the input text, their id and all other rows are kept, and the
response is 200 with `parseInt` of the path id and the input text. -/
theorem put_matched_id_updates (readId : String → Option Nat) (s : Store)
    (p : String) (n : Nat) (body : Obj) (t : String) (hread : readId p = some n)
    (hrow : ∃ r ∈ s.rows, r.id = n)
    (hbody : List.lookup "text" body = some (JsVal.str t)) (ht : t ≠ "") :
    serve readId none (handle (Request.putTask p body)) s =
      (⟨200, Body.json [("id", parseInt p), ("text", JsVal.str t)]⟩,
        ⟨s.rows.map (fun r => if r.id = n then ⟨r.id, t⟩ else r), s.nextId⟩) := by
  obtain ⟨hg, htr⟩ := truthy_of_lookup_str hbody ht
  have hpos := filter_hit_ne_nil n s.rows hrow
  simp only [handle, putTask, hg, htr, Bool.not_true, Bool.false_eq_true, if_false, serve,
    runExec_update, hit_read readId p n hread, hpos, decide_eq_true_eq]

/-- The GET /tasks that follows an update of the rows of id `n` returns the
row of that id with the new text, and no other entry of that id. -/
theorem get_after_update (readId : String → Option Nat) (s : Store) (n : Nat)
    (t : String) (hrow : ∃ r ∈ s.rows, r.id = n) :
    ∃ items,
      serve readId none (handle Request.getTasks)
          ⟨s.rows.map (fun r => if r.id = n then ⟨r.id, t⟩ else r), s.nextId⟩ =
        (⟨200, Body.arr items⟩,
          ⟨s.rows.map (fun r => if r.id = n then ⟨r.id, t⟩ else r), s.nextId⟩) ∧
      Row.toObj ⟨n, t⟩ ∈ items ∧
      ∀ o ∈ items, o.get "id" = JsVal.num n → o = Row.toObj ⟨n, t⟩ := by
  refine ⟨_, serve_getTasks readId _, ?_, ?_⟩
  · obtain ⟨r, hr, hrn⟩ := hrow
    refine List.mem_map.mpr ⟨⟨n, t⟩, ?_, rfl⟩
    rw [List.mem_insertionSort]
    refine List.mem_map.mpr ⟨r, hr, ?_⟩
    simp [hrn]
  · intro o ho hid
    obtain ⟨r1, hr1, rfl⟩ := List.mem_map.mp ho
    rw [List.mem_insertionSort] at hr1
    obtain ⟨r, _, rfl⟩ := List.mem_map.mp hr1
    rw [get_id_toObj] at hid
    by_cases hrn : r.id = n
    · simp [hrn]
    · simp [hrn] at hid

/-- When the path carries the decimal numeral of the id `n` of an existing
row, `n` below `2^53`, the response of the PUT carries the id `n`. -/
theorem put_decimal_id_updates (readId : String → Option Nat) (s : Store) (n : Nat)
    (body : Obj) (t : String) (hn : n < 2 ^ 53) (hread : readId (Nat.repr n) = some n)
    (hrow : ∃ r ∈ s.rows, r.id = n)
    (hbody : List.lookup "text" body = some (JsVal.str t)) (ht : t ≠ "") :
    serve readId none (handle (Request.putTask (Nat.repr n) body)) s =
      (⟨200, Body.json [("id", JsVal.num n), ("text", JsVal.str t)]⟩,
        ⟨s.rows.map (fun r => if r.id = n then ⟨r.id, t⟩ else r), s.nextId⟩) := by
  rw [put_matched_id_updates readId s (Nat.repr n) n body t hread hrow hbody ht,
    parseInt_repr n hn]

/-- C3, failing input: PUT /tasks/1e1 with the text `x` on a table that holds
the rows 1 and 10, served by a store that reads the bound string `1e1` as the
number 10. Row 10 gets the text and row 1 is untouched, yet the response is 200
with the id 1, the value of `parseInt` on the path: not the id of the row that
was updated. -/
theorem put_exponent_id_reports_other_row :
    readScientific "1e1" = some 10 ∧
    parseInt "1e1" = JsVal.num 1 ∧
    serve readScientific none
        (handle (Request.putTask "1e1" [("text", JsVal.str "x")]))
        ⟨[⟨1, "a"⟩, ⟨10, "j"⟩], 11⟩ =
      (⟨200, Body.json [("id", JsVal.num 1), ("text", JsVal.str "x")]⟩,
        ⟨[⟨1, "a"⟩, ⟨10, "x"⟩], 11⟩) := by
  decide

/-- C5: for a table that meets its constraints, the id `n` of an existing row
(the path carries the decimal numeral of `n`, which the store reads as `n`)
and a store that does not fail, DELETE /tasks/:id is answered 204 with an
empty body and removes that row and no other; the GET /tasks that follows is
answered 200 with exactly the rows that remain, in ascending order of id, none
of them of id `n`; a second DELETE of the id is answered 404 and leaves the
table as it is. -/
theorem delete_existing_id (readId : String → Option Nat) (s : Store) (n : Nat)
    (hwf : s.WF) (hread : readId (Nat.repr n) = some n)
    (hrow : ∃ r ∈ s.rows, r.id = n) :
    serve readId none (handle (Request.deleteTask (Nat.repr n))) s =
      (⟨204, Body.empty⟩, ⟨s.rows.filter (fun r => decide (r.id ≠ n)), s.nextId⟩) ∧
    (s.rows.filter (fun r => decide (r.id ≠ n))).length + 1 = s.rows.length ∧
    (∃ rs : List Row,
      rs.Perm (s.rows.filter (fun r => decide (r.id ≠ n))) ∧
      rs.Sorted (fun a b => a.id < b.id) ∧
      (∀ r ∈ rs, r ∈ s.rows ∧ r.id ≠ n) ∧
      serve readId none (handle Request.getTasks)
          ⟨s.rows.filter (fun r => decide (r.id ≠ n)), s.nextId⟩ =
        (⟨200, Body.arr (rs.map Row.toObj)⟩,
          ⟨s.rows.filter (fun r => decide (r.id ≠ n)), s.nextId⟩)) ∧
    serve readId none (handle (Request.deleteTask (Nat.repr n)))
        ⟨s.rows.filter (fun r => decide (r.id ≠ n)), s.nextId⟩ =
      (⟨404, errorBody "Tugas tidak ditemukan"⟩,
        ⟨s.rows.filter (fun r => decide (r.id ≠ n)), s.nextId⟩) := by
  have hcount := hit_count n s.rows hwf.1 hrow
  have hnot : (fun r : Row => !decide (r.id = n)) = fun r => decide (r.id ≠ n) := by
    funext r
    simp
  refine ⟨?_, ?_, ?_, ?_⟩
  · simp only [handle, deleteTask, serve, runExec_delete, hit_read readId _ n hread,
      hcount, hnot]
    simp
  · have hlen := List.length_eq_length_filter_add (l := s.rows) (fun r => decide (r.id = n))
    rw [hcount, hnot] at hlen
    omega
  · have hperm := List.perm_insertionSort (fun a b : Row => a.id ≤ b.id)
      (s.rows.filter (fun r => decide (r.id ≠ n)))
    refine ⟨_, hperm, ?_, ?_, serve_getTasks readId _⟩
    · exact sorted_lt_of_nodup _
        (hwf.1.sublist ((List.filter_sublist s.rows).map Row.id))
    · intro r hr
      have hmem := List.mem_filter.mp (hperm.mem_iff.mp hr)
      exact ⟨hmem.1, by simpa using hmem.2⟩
  · have hnone : (s.rows.filter (fun r => decide (r.id ≠ n))).filter
        (fun r => decide (r.id = n)) = [] := by
      rw [List.filter_eq_nil_iff]
      intro r hr
      have := (List.mem_filter.mp hr).2
      simpa using this
    have hsame : (s.rows.filter (fun r => decide (r.id ≠ n))).filter
        (fun r => decide (r.id ≠ n)) = s.rows.filter (fun r => decide (r.id ≠ n)) := by
      rw [List.filter_eq_self]
      intro r hr
      exact (List.mem_filter.mp hr).2
    simp only [handle, deleteTask, serve, runExec_delete, hit_read readId _ n hread,
      hnot, hnone, hsame]
    simp

theorem delete_existing_id_witness :
    (⟨[⟨4, "d"⟩, ⟨1, "a"⟩, ⟨2, "b"⟩], 5⟩ : Store).WF ∧
    readDecimal (Nat.repr 1) = some 1 ∧
    (∃ r ∈ (⟨[⟨4, "d"⟩, ⟨1, "a"⟩, ⟨2, "b"⟩], 5⟩ : Store).rows, r.id = 1) ∧
    serve readDecimal none (handle (Request.deleteTask "1"))
        ⟨[⟨4, "d"⟩, ⟨1, "a"⟩, ⟨2, "b"⟩], 5⟩ =
      (⟨204, Body.empty⟩, ⟨[⟨4, "d"⟩, ⟨2, "b"⟩], 5⟩) ∧
    ([⟨4, "d"⟩, ⟨2, "b"⟩] : List Row).length + 1 =
      ([⟨4, "d"⟩, ⟨1, "a"⟩, ⟨2, "b"⟩] : List Row).length ∧
    (∃ rs : List Row,
      rs.Perm [⟨4, "d"⟩, ⟨2, "b"⟩] ∧
      rs.Sorted (fun a b => a.id < b.id) ∧
      (∀ r ∈ rs, r ∈ ([⟨4, "d"⟩, ⟨1, "a"⟩, ⟨2, "b"⟩] : List Row) ∧ r.id ≠ 1) ∧
      serve readDecimal none (handle Request.getTasks) ⟨[⟨4, "d"⟩, ⟨2, "b"⟩], 5⟩ =
        (⟨200, Body.arr (rs.map Row.toObj)⟩, ⟨[⟨4, "d"⟩, ⟨2, "b"⟩], 5⟩)) ∧
    serve readDecimal none (handle (Request.deleteTask "1")) ⟨[⟨4, "d"⟩, ⟨2, "b"⟩], 5⟩ =
      (⟨404, errorBody "Tugas tidak ditemukan"⟩, ⟨[⟨4, "d"⟩, ⟨2, "b"⟩], 5⟩) :=
  ⟨by decide, by decide, ⟨⟨1, "a"⟩, by decide, rfl⟩,
    delete_existing_id readDecimal ⟨[⟨4, "d"⟩, ⟨1, "a"⟩, ⟨2, "b"⟩], 5⟩ 1 (by decide)
      (by decide) ⟨⟨1, "a"⟩, by decide, rfl⟩⟩

/-- The GET /tasks of the end-to-end scenario: after the row 1 of the table
holding 4, 1 and 2 is deleted, the answer lists the rows 2 and 4 in this
order. -/
theorem get_after_delete_example :
    serve readDecimal none (handle Request.getTasks) ⟨[⟨4, "d"⟩, ⟨2, "b"⟩], 5⟩ =
      (⟨200, Body.arr [Row.toObj ⟨2, "b"⟩, Row.toObj ⟨4, "d"⟩]⟩,
        ⟨[⟨4, "d"⟩, ⟨2, "b"⟩], 5⟩) := by
  decide

end TaskApp
